import Mathlib

/-!
Verification development for a small Twitch IRC bot (`src/main.rs`).

Rust strings are modelled as `List Char`; the websocket transport, the
environment and the external `ggstdl` lookup crate are modelled as injected
data (see `GGSTDLData` and `SessionEnv`).  All definitions below are direct
translations of the functions in `src/main.rs`.
-/

set_option autoImplicit false

/-- Convenience: the character list of a string literal (Rust `&str`). -/
def chars (s : String) : List Char := s.data

/-! ### The regex `PRIVMSG #(.*) :(.*)` (leftmost-first, greedy, `.` ≠ `'\n'`)

`parse_message_to_command` matches the line against the Rust regex
`PRIVMSG #(.*) :(.*)`.  The `regex` crate uses leftmost-first semantics:
the engine tries each start position from the left; after the literal
`PRIVMSG #`, the greedy `(.*)` first consumes the maximal newline-free run
and then backtracks to the last position where a literal `" :"` follows; the
trailing `(.*)` then greedily takes the remaining newline-free run.  `.`
matches every character except `'\n'` (it does match `'\r'`). -/

/-- Backtracking search for the separator `" :"`: scanning `j` downward from
`n`, the first `j` such that `" :"` occurs at offset `j` and the prefix
before `j` (the candidate for capture group 1) is newline-free. -/
def lastSepFrom (l : List Char) : Nat → Option Nat
  | 0 => none
  | j + 1 =>
    if (l.drop j).take 2 = [' ', ':'] ∧ '\n' ∉ l.take j then some j
    else lastSepFrom l j

/-- Greedy choice of the split point between the two capture groups. -/
def lastSep (l : List Char) : Option Nat := lastSepFrom l l.length

/-- The literal part of the pattern. -/
def privmsgPat : List Char := chars "PRIVMSG #"

/-- Try to match `PRIVMSG #(.*) :(.*)` at the current position, returning the
two capture groups. -/
def matchAt (l : List Char) : Option (List Char × List Char) :=
  if l.take 9 = privmsgPat then
    let rest := l.drop 9
    match lastSep rest with
    | some j => some (rest.take j, (rest.drop (j + 2)).takeWhile (fun c => c != '\n'))
    | none => none
  else none

/-- `Regex::captures` for the pattern `PRIVMSG #(.*) :(.*)`: the leftmost
position at which the pattern matches, with greedy group resolution. -/
def regexCaptures : List Char → Option (List Char × List Char)
  | [] => matchAt []
  | c :: cs =>
    match matchAt (c :: cs) with
    | some r => some r
    | none => regexCaptures cs

/-! ### Helpers used by the extraction code -/

/-- Rust `str::starts_with` for a literal pattern. -/
def startsWithL : List Char → List Char → Bool
  | [], _ => true
  | _ :: _, [] => false
  | p :: ps, c :: cs => p == c && startsWithL ps cs

/-- Rust `str::splitn(2, " ")`: the piece before the first space, and — when a
space exists — everything after it. -/
def splitn2Space : List Char → List Char × Option (List Char)
  | [] => ([], none)
  | c :: rest =>
    if c = ' ' then ([], some rest)
    else
      let p := splitn2Space rest
      (c :: p.1, p.2)

/-- Rust `str::trim_end_matches("\r")`: remove every trailing `'\r'`. -/
def trimEndCR (l : List Char) : List Char :=
  (l.reverse.dropWhile (fun c => c == '\r')).reverse

/-- Rust `str::split(" ")`: split on every single space, keeping empty
pieces; the empty string yields one empty piece. -/
def splitSpaces : List Char → List (List Char)
  | [] => [[]]
  | c :: rest =>
    if c = ' ' then [] :: splitSpaces rest
    else
      match splitSpaces rest with
      | [] => [[c]]
      | h :: t => (c :: h) :: t

/-- Rust `Vec::join(" ")`. -/
def joinSpace : List (List Char) → List Char
  | [] => []
  | [x] => x
  | x :: y :: rest => x ++ ' ' :: joinSpace (y :: rest)

/-- ASCII lower-casing of one character (`u8::to_ascii_lowercase`). -/
def asciiLower (c : Char) : Char :=
  if 'A' ≤ c ∧ c ≤ 'Z' then Char.ofNat (c.toNat + 32) else c

/-- Rust `str::eq_ignore_ascii_case`. -/
def eqIgnoreAsciiCase : List Char → List Char → Bool
  | [], [] => true
  | a :: as, b :: bs => asciiLower a == asciiLower b && eqIgnoreAsciiCase as bs
  | _, _ => false

/-! ### Data model (`struct Command`, the `ggstdl` collaborator, errors) -/

/-- `struct Command { channel, command, args }` from `src/main.rs`. -/
structure Command where
  channel : List Char
  command : List Char
  args : List (List Char)
deriving DecidableEq, Repr

/-- `ggstdl::Move`: the frame-data record returned by the lookup collaborator;
all fields opaque strings, only formatted by this program. -/
structure Move where
  input : List Char
  damage : List Char
  guard : List Char
  startup : List Char
  active : List Char
  recovery : List Char
  onblock : List Char
  onhit : List Char
  level : List Char
deriving DecidableEq, Repr

/-- `ggstdl::GGSTDLError`: the two classified misses of the collaborator. -/
inductive GGSTDLError where
  | UnknownCharacter
  | UnknownMove
deriving DecidableEq, Repr

/-- `ggstdl::GGSTDLData`, modelled as the injected lookup dependency: its one
consumed method `find_move(character_query, move_query)`. -/
structure GGSTDLData where
  find_move : List Char → List Char → Except GGSTDLError Move

/-- `enum ParseFramesCommandError` from `src/main.rs`. -/
inductive ParseFramesCommandError where
  | UnknownCharacter (q : List Char)
  | UnknownMove (q : List Char)
  | WrongArguments
deriving DecidableEq, Repr

/-! ### The functions of `src/main.rs` -/

/-- The command-extraction half of `parse_message_to_command` (the body after
the regex captures succeed, with `channel` and the captured message text in
scope). -/
def extract (channel msg : List Char) : Option Command :=
  if startsWithL (chars "!") msg then
    let s := splitn2Space msg
    let root := trimEndCR s.1
    let args :=
      match s.2 with
      | some next => splitSpaces (trimEndCR next)
      | none => []
    some { channel := channel, command := root, args := args }
  else
    none

/-- `fn parse_message_to_command(raw: &str) -> Option<Command>`. -/
def parse_message_to_command (raw : List Char) : Option Command :=
  match regexCaptures raw with
  | none => none
  | some (channel, msg) => extract channel msg

/-- `fn parse_frames_command(args, data) -> Result<&Move, ParseFramesCommandError>`. -/
def parse_frames_command (args : List (List Char)) (data : GGSTDLData) :
    Except ParseFramesCommandError Move :=
  match args with
  | [] => Except.error ParseFramesCommandError.WrongArguments
  | character_query :: rest =>
    let move_query := joinSpace rest
    if move_query = [] then Except.error ParseFramesCommandError.WrongArguments
    else
      match data.find_move character_query move_query with
      | Except.ok move_found => Except.ok move_found
      | Except.error GGSTDLError.UnknownCharacter =>
          Except.error (ParseFramesCommandError.UnknownCharacter character_query)
      | Except.error GGSTDLError.UnknownMove =>
          Except.error (ParseFramesCommandError.UnknownMove move_query)

/-- `fn format_msg(text, channel) -> Message`: the outbound
`PRIVMSG #<channel> :<text>` frame, modelled as its text. -/
def format_msg (text : List Char) (channel : List Char) : List Char :=
  chars "PRIVMSG #" ++ channel ++ chars " :" ++ text

/-- `fn format_move(fmt: &Move) -> String`. -/
def format_move (m : Move) : List Char :=
  m.input ++ chars ": dmg=(" ++ m.damage ++ chars ") guard=(" ++ m.guard
    ++ chars ") startup=(" ++ m.startup ++ chars ") active=(" ++ m.active
    ++ chars ") recov=(" ++ m.recovery ++ chars ") block=(" ++ m.onblock
    ++ chars ") hit=(" ++ m.onhit ++ chars ") atklvl=(" ++ m.level ++ chars ")"

/-- The ASCII apostrophe used by the two unknown-query reply templates. -/
def quoteChar : Char := Char.ofNat 39

/-- Outcome of handling one inbound text line in the receive loop of
`web_socket_loop`: either the process panics (an `unwrap` of `None`), or a
(possibly empty) list of outbound frames is sent. -/
inductive LineOutcome where
  | panicked
  | replies (out : List (List Char))
deriving DecidableEq, Repr

/-- The per-line body of the receive loop in `web_socket_loop` (lines 41-74 of
`src/main.rs`): keepalive handling, then command parsing and dispatch. -/
def processLine (data : GGSTDLData) (text : List Char) : LineOutcome :=
  if startsWithL (chars "PING") text then
    match (splitn2Space text).2 with
    | none => LineOutcome.panicked
    | some rest => LineOutcome.replies [chars "PONG " ++ rest]
  else
    match parse_message_to_command text with
    | none => LineOutcome.replies []
    | some command =>
      if eqIgnoreAsciiCase command.command (chars "!fd") then
        match parse_frames_command command.args data with
        | Except.ok move_found =>
            LineOutcome.replies [format_msg (format_move move_found) command.channel]
        | Except.error (ParseFramesCommandError.UnknownCharacter q) =>
            LineOutcome.replies
              [format_msg (chars "Currently unknown character: " ++ (quoteChar :: q) ++ [quoteChar])
                command.channel]
        | Except.error (ParseFramesCommandError.UnknownMove q) =>
            LineOutcome.replies
              [format_msg (chars "Currently unknown move: " ++ (quoteChar :: q) ++ [quoteChar])
                command.channel]
        | Except.error ParseFramesCommandError.WrongArguments =>
            LineOutcome.replies
              [format_msg (chars "Invalid args, try: !frames <char> <move_query>") command.channel]
      else LineOutcome.replies []

/-! ### Connection manager: one session and the outer retry driver -/

/-- How one invocation of `web_socket_loop` ends: `errored` is `Err(_)` (the
driver retries), `finished` is `Ok(())` (the driver stops), `panicked` is a
process-aborting panic. -/
inductive SessionOutcome where
  | errored
  | finished
  | panicked
deriving DecidableEq, Repr

/-- The receive loop of `web_socket_loop`: each inbound item is either a
transport read failure (`msg?` propagates it as `Err`) or a text line fed to
`processLine`; an exhausted list models the stream returning `None`
(connection closed), after which `close` runs — `close_ok` is its result.
Outbound sends are modelled as succeeding; a failed send is a transport
error ending the session, covered by the `.error` inbound case. -/
def session_loop (data : GGSTDLData) (close_ok : Bool) :
    List (Except Unit (List Char)) → SessionOutcome
  | [] => if close_ok then SessionOutcome.finished else SessionOutcome.errored
  | Except.error _ :: _ => SessionOutcome.errored
  | Except.ok text :: rest =>
    match processLine data text with
    | LineOutcome.panicked => SessionOutcome.panicked
    | LineOutcome.replies _ => session_loop data close_ok rest

/-- The environment one `web_socket_loop` call runs against: results of the
transport connect, the three setup-line sends (`PASS`, `NICK`, `JOIN`), the
`ggstdl::load()` call, the inbound stream, and the final close. -/
structure SessionEnv where
  connect_ok : Bool
  pass_ok : Bool
  nick_ok : Bool
  join_ok : Bool
  load : Except Unit GGSTDLData
  inbound : List (Except Unit (List Char))
  close_ok : Bool

/-- `async fn web_socket_loop(...) -> Result<(), Box<dyn Error>>`: connect,
send the three setup lines (any failure returns `Err`), load the dataset
(`.expect(...)` panics on failure), then run the receive loop. -/
def web_socket_loop (env : SessionEnv) : SessionOutcome :=
  if env.connect_ok && env.pass_ok && env.nick_ok && env.join_ok then
    match env.load with
    | Except.error _ => SessionOutcome.panicked
    | Except.ok data => session_loop data env.close_ok env.inbound
  else SessionOutcome.errored

/-- Observable fate of the outer driver in `main`: `terminated` is `main`
returning `Ok(())`, `aborted` is a panic, `stillRetrying` means every session
environment provided so far ended in `Err` and the loop would call
`web_socket_loop` again. -/
inductive DriverOutcome where
  | terminated
  | aborted
  | stillRetrying
deriving DecidableEq, Repr

/-- The retry loop of `main`: `while let Err(_) = val { val = web_socket_loop(...) }`,
run against a list of session environments (one per attempt). -/
def main_loop : List SessionEnv → DriverOutcome
  | [] => DriverOutcome.stillRetrying
  | env :: rest =>
    match web_socket_loop env with
    | SessionOutcome.finished => DriverOutcome.terminated
    | SessionOutcome.panicked => DriverOutcome.aborted
    | SessionOutcome.errored => main_loop rest

/-! ### Concrete collaborator instances and environments used in witnesses -/

/-- The move record of the spec's end-to-end scenario. -/
def moveStub : Move :=
  { input := chars "5K", damage := chars "8", guard := chars "mid"
    startup := chars "7", active := chars "3", recovery := chars "14"
    onblock := chars "-2", onhit := chars "+3", level := chars "1" }

/-- A lookup collaborator that recognizes nothing. -/
def dataStub : GGSTDLData :=
  { find_move := fun _ _ => Except.error GGSTDLError.UnknownCharacter }

/-- A lookup collaborator holding exactly the record of the end-to-end
scenario, at character `Sol`, move `5K`. -/
def dataSol : GGSTDLData :=
  { find_move := fun c m =>
      if c = chars "Sol" ∧ m = chars "5K" then Except.ok moveStub
      else Except.error GGSTDLError.UnknownCharacter }

/-- A session whose connection closes gracefully before any line arrives. -/
def envGraceful : SessionEnv :=
  { connect_ok := true, pass_ok := true, nick_ok := true, join_ok := true
    load := Except.ok dataStub, inbound := [], close_ok := true }

/-- A session whose transport connect fails. -/
def envConnectFail : SessionEnv :=
  { connect_ok := false, pass_ok := true, nick_ok := true, join_ok := true
    load := Except.ok dataStub, inbound := [], close_ok := true }

/-- A session where connect and the setup sends succeed but `ggstdl::load()`
fails. -/
def envLoadFail : SessionEnv :=
  { connect_ok := true, pass_ok := true, nick_ok := true, join_ok := true
    load := Except.error (), inbound := [], close_ok := true }

/-- Whether the two-character separator `" :"` occurs anywhere in the list
(used to state when the greedy capture groups can round-trip). -/
def hasSepB : List Char → Bool
  | [] => false
  | [_] => false
  | a :: b :: rest => (a == ' ' && b == ':') || hasSepB (b :: rest)

/-! ### Helper lemmas -/

/-- Taking the length of the left part of an append returns that part. -/
theorem take_len_append (a b : List Char) : (a ++ b).take a.length = a := by
  induction a with
  | nil => rfl
  | cons x xs ih => simp [ih]

/-- Dropping the length of the left part of an append plus `k` drops `k` from
the right part. -/
theorem drop_len_add_append (a b : List Char) (k : Nat) :
    (a ++ b).drop (a.length + k) = b.drop k := by
  induction a with
  | nil => simp
  | cons x xs ih =>
    have hx : xs.length + 1 + k = (xs.length + k) + 1 := by omega
    simp only [List.cons_append, List.length_cons, hx, List.drop_succ_cons, ih]

/-- Dropping exactly the length of the left part of an append. -/
theorem drop_len_append (a b : List Char) : (a ++ b).drop a.length = b := by
  simp

/-- `takeWhile` on the non-newline predicate keeps a newline-free list. -/
theorem takeWhile_ne_nl (t : List Char) (ht : '\n' ∉ t) :
    t.takeWhile (fun c => c != '\n') = t := by
  induction t with
  | nil => rfl
  | cons c cs ih =>
    have hc : (c != '\n') = true := by
      have hne : c ≠ '\n' := fun h => ht (by simp [h])
      simpa [bne_iff_ne] using hne
    have hcs : '\n' ∉ cs := fun h => ht (by simp [h])
    simp [List.takeWhile_cons, hc, ih hcs]

/-- The second component of `splitn2Space` is `none` exactly when the list
has no space. -/
theorem splitn2Space_none_iff (l : List Char) : (splitn2Space l).2 = none ↔ ' ' ∉ l := by
  induction l with
  | nil => simp [splitn2Space]
  | cons c rest ih =>
    by_cases hc : c = ' '
    · subst hc
      simp [splitn2Space]
    · have hc' : ¬ (' ' = c) := fun h => hc h.symm
      simp [splitn2Space, hc, hc', ih]

/-- If `hasSepB` is false then no position of the list carries the `" :"`
separator. -/
theorem no_sep_of_hasSepB_false (t : List Char) (h : hasSepB t = false) :
    ∀ k, (t.drop k).take 2 ≠ [' ', ':'] := by
  induction t with
  | nil => intro k; simp
  | cons a rest ih =>
    intro k
    cases k with
    | zero =>
      cases rest with
      | nil => simp
      | cons b rest2 =>
        have hor : (a = ' ' → ¬ b = ':') ∧ hasSepB (b :: rest2) = false := by
          simpa [hasSepB] using h
        intro hab
        have hab' : [a, b] = [' ', ':'] := by simpa using hab
        injection hab' with h1 hr
        injection hr with h2 _
        exact hor.1 h1 h2
    | succ k' =>
      have hrest : hasSepB rest = false := by
        cases rest with
        | nil => rfl
        | cons b r2 =>
          have hor : (a = ' ' → ¬ b = ':') ∧ hasSepB (b :: r2) = false := by
            simpa [hasSepB] using h
          exact hor.2
      simpa using ih hrest k'

/-- Unfolding equation for `lastSepFrom` at a successor bound. -/
theorem lastSepFrom_succ (l : List Char) (j : Nat) :
    lastSepFrom l (j + 1) =
      if (l.drop j).take 2 = [' ', ':'] ∧ '\n' ∉ l.take j then some j
      else lastSepFrom l j := rfl

/-- If every candidate between `m` and `n` fails, the backtracking scan from
`n` equals the scan from `m`. -/
theorem lastSepFrom_eq_of_fail (l : List Char) (m : Nat) :
    ∀ n, m ≤ n →
      (∀ j, m ≤ j → j < n → ¬ ((l.drop j).take 2 = [' ', ':'] ∧ '\n' ∉ l.take j)) →
      lastSepFrom l n = lastSepFrom l m := by
  intro n
  induction n with
  | zero =>
    intro hm _
    rw [Nat.le_zero.mp hm]
  | succ n ih =>
    intro hm hfail
    by_cases hmn : m = n + 1
    · rw [hmn]
    · have hm' : m ≤ n := Nat.lt_succ_iff.mp (Nat.lt_of_le_of_ne hm hmn)
      have hn := hfail n hm' (Nat.lt_succ_self n)
      rw [lastSepFrom_succ, if_neg hn]
      exact ih hm' (fun j hj hjn => hfail j hj (Nat.lt_succ_of_lt hjn))

/-- A successful `matchAt` on the whole line is what `regexCaptures`
returns (position 0 is tried first). -/
theorem regexCaptures_of_matchAt {l : List Char} {r : List Char × List Char}
    (h : matchAt l = some r) : regexCaptures l = some r := by
  cases l with
  | nil => simpa [regexCaptures] using h
  | cons c cs => simp [regexCaptures, h]

/-! ### Claim theorems -/

/-- Claim C1, counterexample: the outer driver does not re-enter the
connect phase after every session end.  A session whose inbound stream is
exhausted (the peer closes the websocket) and whose close succeeds makes
`web_socket_loop` return `Ok(())`, and `while let Err(_) = val` then stops:
`main` terminates even though a further session environment was available.
So a terminal state is reachable without external process termination. -/
theorem c1_counterexample :
    main_loop [envGraceful, envConnectFail] = DriverOutcome.terminated ∧
    DriverOutcome.terminated ≠ DriverOutcome.stillRetrying := by
  exact ⟨rfl, by decide⟩

/-- Claim C1, amended: the driver re-enters the connect/handshake phase,
with no delay and no retry-count ceiling, whenever a session ends with an
error (`Err`): as long as every attempted session errors, the driver never
reaches a terminal state.  (A session that ends gracefully with `Ok(())`
instead terminates the driver.) -/
theorem c1_unbounded_retry_on_errors (envs : List SessionEnv)
    (h : ∀ e ∈ envs, web_socket_loop e = SessionOutcome.errored) :
    main_loop envs = DriverOutcome.stillRetrying := by
  induction envs with
  | nil => rfl
  | cons e rest ih =>
    have he : web_socket_loop e = SessionOutcome.errored := h e (by simp)
    have hr : ∀ x ∈ rest, web_socket_loop x = SessionOutcome.errored :=
      fun x hx => h x (by simp [hx])
    simp only [main_loop, he]
    exact ih hr

/-- Claim C1, witness: three consecutive failed connects leave the driver
still retrying. -/
theorem c1_unbounded_retry_on_errors_witness :
    main_loop [envConnectFail, envConnectFail, envConnectFail] = DriverOutcome.stillRetrying :=
  c1_unbounded_retry_on_errors [envConnectFail, envConnectFail, envConnectFail] (by decide)

/-- Claim C2, counterexample: the keepalive branch is not total.  On the
line `PING` — which begins with the keepalive marker but has no separator
after it — `splitn(2, " ").skip(1).next()` is `None` and the `.unwrap()`
panics instead of replying or ignoring the line. -/
theorem c2_counterexample :
    processLine dataStub (chars "PING") = LineOutcome.panicked := by
  rfl

/-- Claim C3 (confirmed), end-to-end: for the inbound line
`PRIVMSG #bar :!fd Sol 5K` and a lookup returning the record with
input `5K`, damage `8`, guard `mid`, startup `7`, active `3`, recovery `14`,
on-block `-2`, on-hit `+3`, level `1`, the single outbound frame is exactly
`PRIVMSG #bar :5K: dmg=(8) guard=(mid) startup=(7) active=(3) recov=(14) block=(-2) hit=(+3) atklvl=(1)`:
the fields in the fixed order, each value rendered exactly as received. -/
theorem c3_success_reply_format :
    processLine dataSol (chars "PRIVMSG #bar :!fd Sol 5K") =
      LineOutcome.replies
        [chars "PRIVMSG #bar :5K: dmg=(8) guard=(mid) startup=(7) active=(3) recov=(14) block=(-2) hit=(+3) atklvl=(1)"] := by
  rfl

/-- Claim C5, counterexample: extracting from the channel-message text
`!fd GiovannaDL 5K` does not yield the command name `fd`: the root token is
stored including the marker, as `!fd`. -/
theorem c5_counterexample :
    ¬ ((extract (chars "chan") (chars "!fd GiovannaDL 5K")).map
        (fun cmd => (cmd.command, cmd.args)) =
      some (chars "fd", [chars "GiovannaDL", chars "5K"])) := by
  decide

/-- Claim C5, amended: extracting a command from the channel-message text
`!fd GiovannaDL 5K` yields the command name `!fd` — the root token up to the
first whitespace, marker included, trailing carriage-returns stripped — and
the argument sequence `["GiovannaDL", "5K"]`. -/
theorem c5_extract_fd :
    extract (chars "chan") (chars "!fd GiovannaDL 5K") =
      some { channel := chars "chan", command := chars "!fd"
             args := [chars "GiovannaDL", chars "5K"] } := by
  rfl

/-- Claim C6 (confirmed): when the first argument token is absent, or the
remaining tokens rejoined with single spaces form the empty string, dispatch
returns `WrongArguments`; the result holds for every lookup collaborator
`data`, so the collaborator is never consulted. -/
theorem c6_wrong_arguments (data : GGSTDLData) (args : List (List Char))
    (h : args = [] ∨ joinSpace args.tail = []) :
    parse_frames_command args data = Except.error ParseFramesCommandError.WrongArguments := by
  cases args with
  | nil => rfl
  | cons q rest =>
    rcases h with h | h
    · exact absurd h (by simp)
    · simp only [List.tail_cons] at h
      simp [parse_frames_command, h]

/-- Claim C6, witness: args `["Sol"]` (no move token) yield `WrongArguments`. -/
theorem c6_wrong_arguments_witness :
    parse_frames_command [chars "Sol"] dataStub =
      Except.error ParseFramesCommandError.WrongArguments :=
  c6_wrong_arguments dataStub [chars "Sol"] (Or.inr rfl)

/-- Claim C7 (confirmed): for every collaborator, character query and
argument tail with a non-empty rejoined move query, an `UnknownCharacter`
lookup outcome is mapped to `UnknownCharacter` carrying the original
character query verbatim, and an `UnknownMove` outcome to `UnknownMove`
carrying the exact space-rejoined move query. -/
theorem c7_unknown_queries_verbatim (data : GGSTDLData) (cq : List Char)
    (rest : List (List Char)) (h : joinSpace rest ≠ []) :
    (data.find_move cq (joinSpace rest) = Except.error GGSTDLError.UnknownCharacter →
      parse_frames_command (cq :: rest) data =
        Except.error (ParseFramesCommandError.UnknownCharacter cq)) ∧
    (data.find_move cq (joinSpace rest) = Except.error GGSTDLError.UnknownMove →
      parse_frames_command (cq :: rest) data =
        Except.error (ParseFramesCommandError.UnknownMove (joinSpace rest))) := by
  constructor <;> intro hf <;> simp [parse_frames_command, h, hf]

/-- Claim C7, witness: the unknown character `Zzz` is echoed back with its
original casing. -/
theorem c7_unknown_queries_verbatim_witness :
    joinSpace [chars "5K"] ≠ [] ∧
    parse_frames_command [chars "Zzz", chars "5K"] dataStub =
      Except.error (ParseFramesCommandError.UnknownCharacter (chars "Zzz")) :=
  ⟨by decide, (c7_unknown_queries_verbatim dataStub (chars "Zzz") [chars "5K"] (by decide)).1 rfl⟩

/-- Claim C8 (confirmed): for every payload, the inbound line `PING :<payload>`
yields exactly one reply, `PONG :<payload>`, the part after the marker and
its separator carried over byte-identically (leading colon included). -/
theorem c8_ping_pong (data : GGSTDLData) (payload : List Char) :
    processLine data (chars "PING :" ++ payload) =
      LineOutcome.replies [chars "PONG :" ++ payload] := by
  rfl

/-- Claim C9 (confirmed): for every channel and message text that does not
start with `!`, command extraction returns nothing. -/
theorem c9_no_marker_no_command (channel msg : List Char)
    (h : startsWithL (chars "!") msg = false) :
    extract channel msg = none := by
  unfold extract
  simp [h]

/-- Claim C9, witness: the text `hello` produces no command. -/
theorem c9_no_marker_no_command_witness :
    extract (chars "bar") (chars "hello") = none :=
  c9_no_marker_no_command (chars "bar") (chars "hello") (by decide)

/-- Claim C10 (confirmed): in a session whose transport connect and three
setup sends succeed, `ggstdl::load()` runs before any inbound line is
processed (the environment's inbound list is arbitrary and unused here); if
the load fails, the `.expect` panics, and the process aborts instead of
re-entering the reconnect loop — the remaining session environments are
never used. -/
theorem c10_load_failure_aborts (env : SessionEnv) (rest : List SessionEnv)
    (hc : env.connect_ok = true) (hp : env.pass_ok = true)
    (hn : env.nick_ok = true) (hj : env.join_ok = true)
    (hl : env.load = Except.error ()) :
    web_socket_loop env = SessionOutcome.panicked ∧
    main_loop (env :: rest) = DriverOutcome.aborted := by
  have hw : web_socket_loop env = SessionOutcome.panicked := by
    unfold web_socket_loop
    simp [hc, hp, hn, hj, hl]
  exact ⟨hw, by simp only [main_loop, hw]⟩

/-- Claim C10, witness: a concrete session with a failed dataset load aborts
the whole driver. -/
theorem c10_load_failure_aborts_witness :
    web_socket_loop envLoadFail = SessionOutcome.panicked ∧
    main_loop [envLoadFail, envConnectFail] = DriverOutcome.aborted :=
  c10_load_failure_aborts envLoadFail [envConnectFail] rfl rfl rfl rfl rfl

/-- Claim C2, amended: processing an inbound line panics exactly when the
line begins with the keepalive marker `PING` and contains no space (no
separator after the marker); every other line is processed without error —
in particular, a line matching no recognized frame shape is silently
ignored. -/
theorem c2_panic_characterization (data : GGSTDLData) (text : List Char) :
    processLine data text = LineOutcome.panicked ↔
      (startsWithL (chars "PING") text = true ∧ ' ' ∉ text) := by
  unfold processLine
  by_cases hp : startsWithL (chars "PING") text = true
  · rw [if_pos hp]
    cases h2 : (splitn2Space text).2 with
    | none =>
      simp [hp, (splitn2Space_none_iff text).mp h2]
    | some rest =>
      constructor
      · intro hcontra
        simp at hcontra
      · rintro ⟨-, hnm⟩
        have hn := (splitn2Space_none_iff text).mpr hnm
        rw [h2] at hn
        exact absurd hn (by simp)
  · rw [if_neg hp]
    cases hpc : parse_message_to_command text with
    | none => simp [hp]
    | some command =>
      by_cases hfd : eqIgnoreAsciiCase command.command (chars "!fd") = true
      · cases hpf : parse_frames_command command.args data with
        | ok mv => simp [hp, hfd, hpf]
        | error e => cases e <;> simp [hp, hfd, hpf]
      · simp [hp, hfd]

/-- Claim C4, counterexample: the well-formed line built from channel `c`
and text `x :y` does not round-trip.  The greedy first capture group
extends to the last `" :"` occurrence, so `classify` returns channel
`c :x` and text `y` instead of channel `c` and text `x :y`. -/
theorem c4_counterexample :
    regexCaptures (chars "PRIVMSG #c :x :y") = some (chars "c :x", chars "y") ∧
    (chars "c :x", chars "y") ≠ (chars "c", chars "x :y") := by
  exact ⟨by decide, by decide⟩

/-- Claim C4, amended: for every channel `c` and text `t` that are
newline-free and where `t` has no occurrence of the two-character separator
`" :"`, classifying the well-formed line `PRIVMSG #<c> :<t>` recovers `c`
and `t` exactly as injected.  (No carriage-return stripping happens at this
stage: a trailing CR in `t` is returned as part of the text, as the witness
below shows.) -/
theorem c4_roundtrip (c t : List Char)
    (hc : '\n' ∉ c) (ht : '\n' ∉ t) (hs : hasSepB t = false) :
    regexCaptures (chars "PRIVMSG #" ++ (c ++ ' ' :: ':' :: t)) = some (c, t) := by
  have hpatlen : (chars "PRIVMSG #").length = 9 := rfl
  have h9 : (chars "PRIVMSG #" ++ (c ++ ' ' :: ':' :: t)).take 9 = privmsgPat := by
    rw [← hpatlen, take_len_append]
    rfl
  have hdrop9 : (chars "PRIVMSG #" ++ (c ++ ' ' :: ':' :: t)).drop 9 = c ++ ' ' :: ':' :: t := by
    rw [← hpatlen, drop_len_append]
  have hlen : (c ++ ' ' :: ':' :: t).length = (c.length + 1) + (t.length + 1) := by
    simp only [List.length_append, List.length_cons]
    omega
  have hfail : ∀ j, c.length + 1 ≤ j → j < (c ++ ' ' :: ':' :: t).length →
      ¬ (((c ++ ' ' :: ':' :: t).drop j).take 2 = [' ', ':'] ∧
         '\n' ∉ (c ++ ' ' :: ':' :: t).take j) := by
    intro j hj1 hj2 hand
    rcases hand with ⟨hsep, -⟩
    rcases Nat.lt_or_ge j (c.length + 2) with hlt | hge
    · have hj : j = c.length + 1 := by omega
      subst hj
      rw [drop_len_add_append c (' ' :: ':' :: t) 1] at hsep
      simp at hsep
    · obtain ⟨k, hk⟩ : ∃ k, j = (c.length + 2) + k := ⟨j - (c.length + 2), by omega⟩
      subst hk
      have hre : c ++ ' ' :: ':' :: t = (c ++ [' ', ':']) ++ t := by simp
      have hlen2 : (c ++ [' ', ':']).length = c.length + 2 := by simp
      rw [hre, ← hlen2, drop_len_add_append (c ++ [' ', ':']) t k] at hsep
      exact no_sep_of_hasSepB_false t hs k hsep
  have hcond : ((c ++ ' ' :: ':' :: t).drop c.length).take 2 = [' ', ':'] ∧
      '\n' ∉ (c ++ ' ' :: ':' :: t).take c.length := by
    constructor
    · rw [drop_len_append c (' ' :: ':' :: t)]
      rfl
    · rw [take_len_append c (' ' :: ':' :: t)]
      exact hc
  have hlsep : lastSep (c ++ ' ' :: ':' :: t) = some c.length := by
    unfold lastSep
    have hstep := lastSepFrom_eq_of_fail (c ++ ' ' :: ':' :: t) (c.length + 1)
      (c ++ ' ' :: ':' :: t).length (by omega) hfail
    rw [hstep, lastSepFrom_succ, if_pos hcond]
  have htake : (c ++ ' ' :: ':' :: t).take c.length = c := take_len_append c _
  have hdrop2 : (c ++ ' ' :: ':' :: t).drop (c.length + 2) = t := by
    have hre : c ++ ' ' :: ':' :: t = (c ++ [' ', ':']) ++ t := by simp
    have hlen2 : (c ++ [' ', ':']).length = c.length + 2 := by simp
    rw [hre, ← hlen2, drop_len_append]
  have hmatch : matchAt (chars "PRIVMSG #" ++ (c ++ ' ' :: ':' :: t)) = some (c, t) := by
    unfold matchAt
    rw [if_pos h9, hdrop9]
    simp only [hlsep]
    rw [htake, hdrop2, takeWhile_ne_nl t ht]
  exact regexCaptures_of_matchAt hmatch

/-- Claim C4, witness: channel `foo` and text `bar` followed by a carriage
return round-trip through classification — and the CR is NOT stripped. -/
theorem c4_roundtrip_witness :
    '\n' ∉ chars "foo" ∧ '\n' ∉ chars "bar\r" ∧ hasSepB (chars "bar\r") = false ∧
    regexCaptures (chars "PRIVMSG #" ++ (chars "foo" ++ ' ' :: ':' :: chars "bar\r")) =
      some (chars "foo", chars "bar\r") :=
  ⟨by decide, by decide, by decide,
    c4_roundtrip (chars "foo") (chars "bar\r") (by decide) (by decide) (by decide)⟩
